import Mathlib

/-
  Verification development for the zmap_embedded_ip scan engine.

  Shallow embedding of the relevant parts of:
    src/src/send.c                       (send_init, send_run)
    src/src/probe_modules/packet.h       (get_src_port, check_dst_port)
    src/src/probe_modules/packet.c       (icmp_helper_validate,
                                          fs_populate_icmp_from_iphdr,
                                          make_ip_strinqname)
    src/src/probe_modules/module_dns.c   (dns_make_packet, dns_process_packet)

  Machine integers are modelled as Nat with explicit reductions mod 2^16 or
  2^32 where the C code wraps.  Fallible code returns Except or Option.
-/

namespace ZMap

/-! ## send_init (send.c lines 72 to 203): bandwidth conversion and startup checks -/

/-- send.c lines 125 to 149: convert a bandwidth in bits per second into a
packet rate, using the max packet size the probe module will generate plus
the 24-byte Ethernet framing overhead (preamble, start frame, CRC,
inter-frame gap), with the whole frame floored at the 84-byte Ethernet
minimum.  Rate is clamped to 0 when the quotient overflows uint32 and to 1
when the quotient is 0. -/
def bandwidth_to_rate (bandwidth : Nat) (max_packet_length : Nat) : Nat :=
  let pkt_len0 := max_packet_length * 8 + 8 * 24
  let pkt_len := if pkt_len0 < 84 * 8 then 84 * 8 else pkt_len0
  if bandwidth / pkt_len > 0xFFFFFFFF then 0
  else if bandwidth / pkt_len = 0 then 1
  else bandwidth / pkt_len

/-- The configuration consumed by the startup checks of send_init.
max_targets = 0 encodes "unset" (zsend.max_targets); rate = -1 is the
default placeholder of zconf.rate. -/
structure SendInitConf where
  senders : Nat
  total_shards : Nat
  count_allowed : Nat
  port_count : Nat
  max_targets : Nat
  bandwidth : Nat
  rate : Int
  max_packet_length : Nat
deriving Repr, DecidableEq

/-- send.c lines 84 to 166: the fatal startup checks of send_init, in source
order, and the resulting packet rate.  log_fatal is modelled as Except.error
carrying the log message. -/
def send_init_checks (c : SendInitConf) : Except String Int :=
  let num_subshards := c.senders * c.total_shards
  if num_subshards > c.count_allowed * c.port_count then
    Except.error "senders * shards > allowed probes"
  else if c.max_targets ≠ 0 ∧ num_subshards > c.max_targets then
    Except.error "senders * shards > max targets"
  else if c.bandwidth > 0 ∧ c.rate > 0 then
    Except.error "must specify rate or bandwidth, or neither, not both."
  else
    let rate1 : Int :=
      if c.bandwidth > 0 then (bandwidth_to_rate c.bandwidth c.max_packet_length : Int)
      else c.rate
    let rate2 : Int := if rate1 = -1 then 10000 else rate1
    if rate2 < 0 then Except.error "rate impossibly slow"
    else Except.ok rate2

/-! ## send_run (send.c lines 215 to 543): the batching and dry-run behaviour

The send loop builds one packet per (target, probe-stream) pair into the next
batch slot.  We abstract the target iteration: the model takes the sequence
of packets the loop builds as a list, and the outcome of the k-th send_batch
call as a function rcs : Nat -> Int (send_batch returns the number of packets
accepted, or a negative error code). -/

/-- An observable action of the send loop: printing one packet to stdout
(dry-run), or submitting a batch of slots to send_batch. -/
inductive SendEvent (P : Type) where
  | print : P → SendEvent P
  | send : List P → SendEvent P
deriving DecidableEq, Repr

/-- The per-shard mutable state of send_run: the current batch contents, the
counters s.state.packets_sent and s.state.packets_failed, the trace of
emitted events, and the number of send_batch calls made so far. -/
structure BatchState (P : Type) where
  batch : List P
  packets_sent : Nat
  packets_failed : Nat
  events : List (SendEvent P)
  subs : Nat
deriving Repr

/-- Initial state: batch->len = 0, counters zero. -/
def initBatchState (P : Type) : BatchState P := ⟨[], 0, 0, [], 0⟩

/-- One iteration of the inner packet loop of send_run (send.c lines
454 to 485): place the built packet in the next batch slot; if the batch is
full either print it (dry-run, lines 455 to 466) or submit it via send_batch
(lines 467 to 484), attributing the shortfall (or, on rc < 0, the whole
batch) to packets_failed; finally increment packets_sent (line 485). -/
def send_loop_step (dryrun : Bool) (capacity : Nat) (rcs : Nat → Int)
    (st : BatchState P) (p : P) : BatchState P :=
  let batch1 := st.batch ++ [p]
  if batch1.length = capacity then
    if dryrun then
      { batch := [], packets_sent := st.packets_sent + 1,
        packets_failed := st.packets_failed,
        events := st.events ++ batch1.map SendEvent.print, subs := st.subs }
    else
      let rc := rcs st.subs
      let failed_inc := if rc < 0 then batch1.length else batch1.length - rc.toNat
      { batch := [], packets_sent := st.packets_sent + 1,
        packets_failed := st.packets_failed + failed_inc,
        events := st.events ++ [SendEvent.send batch1], subs := st.subs + 1 }
  else
    { st with batch := batch1, packets_sent := st.packets_sent + 1 }

/-- The cleanup block of send_run (send.c lines 521 to 533): the partial
batch is submitted via send_batch when not in dry-run (its outcome is only
logged, not added to the counters), or printed to stdout in dry-run. -/
def send_run_cleanup (dryrun : Bool) (st : BatchState P) : BatchState P :=
  if dryrun then
    { st with batch := [], events := st.events ++ st.batch.map SendEvent.print }
  else
    { st with
      batch := [],
      subs := st.subs + 1,
      events := st.events ++ [SendEvent.send st.batch] }

/-- The batching behaviour of one send_run invocation on the sequence ps of
packets it builds. -/
def send_run_batches (dryrun : Bool) (capacity : Nat) (rcs : Nat → Int)
    (ps : List P) : BatchState P :=
  send_run_cleanup dryrun (ps.foldl (send_loop_step dryrun capacity rcs) (initBatchState P))

/-- Total number of batch slots submitted to send_batch in a trace. -/
def slots_submitted : List (SendEvent P) → Nat
  | [] => 0
  | SendEvent.print _ :: evs => slots_submitted evs
  | SendEvent.send b :: evs => b.length + slots_submitted evs

/-- Number of batch slots accepted by send_batch in a trace, reading the
k-th submission outcome from rcs (send_batch returns the number of packets
accepted, negative on total failure).  This renders the claim side
"number of batch slots submitted successfully". -/
def slots_accepted (rcs : Nat → Int) : List (SendEvent P) → Nat → Nat
  | [], _ => 0
  | SendEvent.print _ :: evs, k => slots_accepted rcs evs k
  | SendEvent.send b :: evs, k =>
      (if rcs k < 0 then 0 else min (rcs k).toNat b.length) + slots_accepted rcs evs (k + 1)

/-- The packets printed to stdout in a trace, in order. -/
def printed_packets : List (SendEvent P) → List P
  | [] => []
  | SendEvent.print p :: evs => p :: printed_packets evs
  | SendEvent.send _ :: evs => printed_packets evs

/-- Whether any send_batch call appears in a trace. -/
def has_send_event : List (SendEvent P) → Bool
  | [] => false
  | SendEvent.print _ :: evs => has_send_event evs
  | SendEvent.send _ :: _ => true

/-- One shard of the scan as seen by the batching model: the packets its
sender thread builds and the outcomes of its send_batch calls. -/
structure ShardRun (P : Type) where
  packets : List P
  rcs : Nat → Int

/-! ## Source port selection and validation (packet.h lines 191 to 214)

validation[1] is a uint32; additions involving it in the C code wrap mod
2^32.  UINT32_MOD makes those wraps explicit. -/

def UINT32_MOD : Nat := 4294967296

/-- The part of zconf consulted by get_src_port and check_dst_port. -/
structure PortConf where
  source_port_first : Nat
  source_port_last : Nat
  packet_streams : Nat
deriving Repr, DecidableEq

/-- packet.h lines 209 to 214: the source port used for probe probe_num,
derived from validation word 1.  The C sum validation[1] + probe_num is
uint32 arithmetic, hence the explicit mod 2^32. -/
def get_src_port (zconf : PortConf) (num_ports : Nat) (probe_num : Nat) (v1 : Nat) : Nat :=
  zconf.source_port_first + ((v1 + probe_num) % UINT32_MOD) % num_ports

/-- packet.h lines 191 to 207: returns false if port is outside the expected
valid range, true otherwise.  The C expression validation[1] +
zconf.packet_streams - 1 is uint32 arithmetic; adding UINT32_MOD - 1 before
reducing mod 2^32 renders the wrapping subtraction of 1 for every Nat
input. -/
def check_dst_port (zconf : PortConf) (port : Nat) (num_ports : Nat) (v1 : Nat) : Bool :=
  if port > zconf.source_port_last ∨ port < zconf.source_port_first then false
  else
    let to_validate := port - zconf.source_port_first
    let mn := v1 % num_ports
    let mx := ((v1 + zconf.packet_streams + (UINT32_MOD - 1)) % UINT32_MOD) % num_ports
    if mn ≤ mx then decide (to_validate ≤ mx ∧ to_validate ≥ mn)
    else decide (to_validate ≤ mx) != decide (to_validate ≥ mn)

/-! ## icmp_helper_validate (packet.c lines 319 to 366)

The function takes the outer IP header of a captured ICMP message and the
capture length; it writes the embedded probe packet into out-parameters only
on success, modelled by returning an Option: some (inner destination,
inner packet length) on PACKET_VALID, none on PACKET_INVALID. -/

/-- ICMP type destination unreachable. -/
def ICMP_UNREACH : Nat := 3
/-- ICMP type source quench. -/
def ICMP_SOURCEQUENCH : Nat := 4
/-- ICMP type redirect. -/
def ICMP_REDIRECT : Nat := 5
/-- ICMP type time exceeded. -/
def ICMP_TIMXCEED : Nat := 11
/-- ICMP_HEADER_SIZE in packet.h. -/
def ICMP_HEADER_SIZE : Nat := 8
/-- sizeof(struct ip): 20 bytes. -/
def SIZEOF_STRUCT_IP : Nat := 20

/-- The fields of a captured ICMP error message consulted by
icmp_helper_validate: the outer header length ip_hl (in 32-bit words), the
outer ICMP type, and the embedded (inner) IP header length and destination
address. -/
structure IcmpCapture where
  ip_hl : Nat
  icmp_type : Nat
  inner_ip_hl : Nat
  inner_ip_dst : Nat
deriving Repr, DecidableEq

/-- packet.c lines 319 to 366: validate an ICMP error response embedding the
original probe.  blocklist_is_allowed is the blocklist oracle.  Returns
some (embedded destination address, embedded packet length) exactly when the
C function returns PACKET_VALID and fills the out-parameters. -/
def icmp_helper_validate (blocklist_is_allowed : Nat → Bool)
    (pkt : IcmpCapture) (len : Nat) (min_l4_len : Nat) : Option (Nat × Nat) :=
  let min_len := 4 * pkt.ip_hl + ICMP_HEADER_SIZE + SIZEOF_STRUCT_IP + min_l4_len
  if len < min_len then none
  else if ¬ (pkt.icmp_type = ICMP_UNREACH ∨ pkt.icmp_type = ICMP_SOURCEQUENCH ∨
             pkt.icmp_type = ICMP_REDIRECT ∨ pkt.icmp_type = ICMP_TIMXCEED) then none
  else
    let inner_packet_len := len - (4 * pkt.ip_hl + ICMP_HEADER_SIZE)
    if inner_packet_len < 4 * pkt.inner_ip_hl + min_l4_len then none
    else if ¬ (blocklist_is_allowed pkt.inner_ip_dst = true) then none
    else some (pkt.inner_ip_dst, inner_packet_len)

/-! ## IPv4 addresses and ip string rendering (packet.c lines 407 to 454) -/

/-- An IPv4 address as its four dotted-quad octets, o1.o2.o3.o4, in the
order the bytes appear on the wire (s_addr is network byte order). -/
structure IPv4 where
  o1 : Nat
  o2 : Nat
  o3 : Nat
  o4 : Nat
deriving Repr, DecidableEq

/-- packet.c make_ip_str: inet_ntoa dotted-quad rendering of an address. -/
def make_ip_str (ip : IPv4) : String :=
  toString ip.o1 ++ "." ++ toString ip.o2 ++ "." ++ toString ip.o3 ++ "." ++ toString ip.o4

/-- The three ASCII bytes written by sprintf with format %03d for one octet
(octets are < 256, so always exactly three digits, zero padded). -/
def sprintf03d (x : Nat) : List Nat :=
  [48 + x / 100 % 10, 48 + x / 10 % 10, 48 + x % 10]

/-- packet.c lines 420 to 436 make_ip_strinqname: encode an address as 16
bytes, a length byte 0x03 before the zero-padded three-digit decimal ASCII
of each octet.  (The trailing null sprintf writes after each group lands at
the next group start and is overwritten by its 0x03; the final null is byte
17 of the allocation and is not part of the 16-byte result.) -/
def make_ip_strinqname (ip : IPv4) : List Nat :=
  [3] ++ sprintf03d ip.o1 ++ [3] ++ sprintf03d ip.o2 ++
  [3] ++ sprintf03d ip.o3 ++ [3] ++ sprintf03d ip.o4

/-- memcpy(buf + off, src, src.length) over a byte-list buffer. -/
def memcpy_at (buf : List Nat) (off : Nat) (src : List Nat) : List Nat :=
  buf.take off ++ src ++ buf.drop (off + src.length)

/-- module_dns.c lines 890 to 903: when zconf.dnsippadding is set,
dns_make_packet overwrites the 16 qname placeholder bytes at packet offset
54 (14 ether + 20 ip + 8 udp + 12 dns header) with the
make_ip_strinqname encoding of the destination address. -/
def dns_apply_ippadding (dnsippadding : Bool) (buf : List Nat) (dst : IPv4) : List Nat :=
  if dnsippadding then memcpy_at buf 54 (make_ip_strinqname dst) else buf

/-! ## Fieldsets (fieldset.c interface, as used by the process functions) -/

/-- A value stored in an output fieldset.  vrep stands for the empty
repeated fieldset created by fs_new_repeated_fieldset in dns_add_null_fs
(the only repeated values built by the code modelled here are empty). -/
inductive FieldVal where
  | vstr : String → FieldVal
  | vnum : Nat → FieldVal
  | vbool : Bool → FieldVal
  | vnull : FieldVal
  | vbin : List Nat → FieldVal
  | vrep : FieldVal
deriving Repr, DecidableEq

/-- An output fieldset: named fields in insertion order. -/
abbrev Fieldset : Type := List (String × FieldVal)

/-- fs_add_string. -/
def fs_add_string (fs : Fieldset) (name : String) (v : String) : Fieldset :=
  fs ++ [(name, FieldVal.vstr v)]

/-- fs_add_constchar. -/
def fs_add_constchar (fs : Fieldset) (name : String) (v : String) : Fieldset :=
  fs ++ [(name, FieldVal.vstr v)]

/-- fs_add_uint64. -/
def fs_add_uint64 (fs : Fieldset) (name : String) (v : Nat) : Fieldset :=
  fs ++ [(name, FieldVal.vnum v)]

/-- fs_add_bool. -/
def fs_add_bool (fs : Fieldset) (name : String) (b : Bool) : Fieldset :=
  fs ++ [(name, FieldVal.vbool b)]

/-- fs_add_null. -/
def fs_add_null (fs : Fieldset) (name : String) : Fieldset :=
  fs ++ [(name, FieldVal.vnull)]

/-- fs_add_binary. -/
def fs_add_binary (fs : Fieldset) (name : String) (bytes : List Nat) : Fieldset :=
  fs ++ [(name, FieldVal.vbin bytes)]

/-- fs_add_repeated (only used with empty repeated fieldsets here). -/
def fs_add_repeated (fs : Fieldset) (name : String) : Fieldset :=
  fs ++ [(name, FieldVal.vrep)]

/-- fs_modify_string: replace the value of an existing field. -/
def fs_modify_string (fs : Fieldset) (name : String) (v : String) : Fieldset :=
  fs.map fun p => if p.1 = name then (p.1, FieldVal.vstr v) else p

/-- Look up the (first) value bound to a name in a fieldset. -/
def fs_lookup (fs : Fieldset) (name : String) : Option FieldVal :=
  (List.find? (fun p => p.1 = name) fs).map Prod.snd

/-- Network byte order uint32 value of an address as a little-endian host
reads it (s_addr). -/
def ipv4_raw (ip : IPv4) : Nat :=
  ip.o1 + ip.o2 * 256 + ip.o3 * 65536 + ip.o4 * 16777216

/-- probe_modules.c fs_add_ip_fields: the system IP fields the receiver adds
before calling process_packet; in particular saddr is the outer source
address of the captured packet. -/
def fs_add_ip_fields (fs : Fieldset) (src dst : IPv4) (ip_id ttl : Nat) : Fieldset :=
  let fs := fs_add_string fs "saddr" (make_ip_str src)
  let fs := fs_add_uint64 fs "saddr_raw" (ipv4_raw src)
  let fs := fs_add_string fs "daddr" (make_ip_str dst)
  let fs := fs_add_uint64 fs "daddr_raw" (ipv4_raw dst)
  let fs := fs_add_uint64 fs "ipid" ip_id
  fs_add_uint64 fs "ttl" ttl

/-! ## ICMP record population (packet.c lines 384 to 405, module_dns.c lines
1128 to 1138, and the ICMPv6 branch of ipv6_udp_process_packet) -/

/-- packet.c icmp_unreach_strings. -/
def icmp_unreach_strings : List String :=
  ["network unreachable", "host unreachable",
   "protocol unreachable", "port unreachable",
   "fragments required", "source route failed",
   "network unknown", "host unknown",
   "source host isolated", "network admin. prohibited",
   "host admin. prohibited", "network unreachable TOS",
   "host unreachable TOS", "communication admin. prohibited",
   "host presdence violation", "precedence cutoff"]

/-- ICMP_UNREACH_PRECEDENCE_CUTOFF. -/
def ICMP_UNREACH_PRECEDENCE_CUTOFF : Nat := 15

/-- The fields of a captured IPv4 ICMP error message consulted by
fs_populate_icmp_from_iphdr: outer source address, ICMP type and code, and
the embedded (inner) IP header destination, the target the probe was sent
to. -/
structure IcmpRecordInput where
  src : IPv4
  icmp_type : Nat
  icmp_code : Nat
  inner_dst : IPv4
deriving Repr, DecidableEq

/-- packet.c lines 384 to 405 fs_populate_icmp_from_iphdr: rewrite saddr to
the embedded destination, then add icmp_responder (the outer source),
icmp_type, icmp_code and icmp_unreach_str. -/
def fs_populate_icmp_from_iphdr (p : IcmpRecordInput) (fs : Fieldset) : Fieldset :=
  let fs := fs_modify_string fs "saddr" (make_ip_str p.inner_dst)
  let fs := fs_add_string fs "icmp_responder" (make_ip_str p.src)
  let fs := fs_add_uint64 fs "icmp_type" p.icmp_type
  let fs := fs_add_uint64 fs "icmp_code" p.icmp_code
  if p.icmp_code ≤ ICMP_UNREACH_PRECEDENCE_CUTOFF then
    fs_add_constchar fs "icmp_unreach_str" (icmp_unreach_strings.getD p.icmp_code "unknown")
  else
    fs_add_constchar fs "icmp_unreach_str" "unknown"

/-- module_dns.c dns_add_null_fs. -/
def dns_add_null_fs (fs : Fieldset) : Fieldset :=
  let fs := fs_add_null fs "dns_id"
  let fs := fs_add_null fs "dns_rd"
  let fs := fs_add_null fs "dns_tc"
  let fs := fs_add_null fs "dns_aa"
  let fs := fs_add_null fs "dns_opcode"
  let fs := fs_add_null fs "dns_qr"
  let fs := fs_add_null fs "dns_rcode"
  let fs := fs_add_null fs "dns_cd"
  let fs := fs_add_null fs "dns_ad"
  let fs := fs_add_null fs "dns_z"
  let fs := fs_add_null fs "dns_ra"
  let fs := fs_add_null fs "dns_qdcount"
  let fs := fs_add_null fs "dns_ancount"
  let fs := fs_add_null fs "dns_nscount"
  let fs := fs_add_null fs "dns_arcount"
  let fs := fs_add_repeated fs "dns_questions"
  let fs := fs_add_repeated fs "dns_answers"
  let fs := fs_add_repeated fs "dns_authorities"
  let fs := fs_add_repeated fs "dns_additionals"
  let fs := fs_add_uint64 fs "dns_parse_err" 1
  fs_add_uint64 fs "dns_unconsumed_bytes" 0

/-- module_dns.c lines 1128 to 1138: the IPPROTO_ICMP branch of
dns_process_packet, applied to the fieldset prepared by the receiver.  raw
is the captured packet for the raw_data field. -/
def dns_process_packet_icmp (p : IcmpRecordInput) (raw : List Nat)
    (fs : Fieldset) : Fieldset :=
  let fs := fs_add_null fs "sport"
  let fs := fs_add_null fs "dport"
  let fs := fs_add_constchar fs "classification" "icmp"
  let fs := fs_add_bool fs "success" false
  let fs := fs_add_bool fs "app_success" false
  let fs := fs_populate_icmp_from_iphdr p fs
  let fs := fs_add_null fs "udp_len"
  let fs := dns_add_null_fs fs
  fs_add_binary fs "raw_data" raw

/-- The fields of a captured ICMPv6 error message consulted by the ICMPv6
branch of ipv6_udp_process_packet; A is the IPv6 address type and ip6str
stands for make_ipv6_str (inet_ntop rendering). -/
structure Icmp6RecordInput (A : Type) where
  src : A
  icmp6_type : Nat
  icmp6_code : Nat
  inner_dst : A

/-- send.c lines 931 to 954 (module_ipv6_udp): the ICMPv6 branch of
ipv6_udp_process_packet: rewrite saddr to the embedded destination,
classify as icmp-unreach with success 0 and icmp_responder the outer
source. -/
def ipv6_udp_process_packet_icmp6 {A : Type} (ip6str : A → String)
    (p : Icmp6RecordInput A) (fs : Fieldset) : Fieldset :=
  let fs := fs_modify_string fs "saddr" (ip6str p.inner_dst)
  let fs := fs_add_string fs "classification" "icmp-unreach"
  let fs := fs_add_uint64 fs "success" 0
  let fs := fs_add_null fs "sport"
  let fs := fs_add_null fs "dport"
  let fs := fs_add_string fs "icmp_responder" (ip6str p.src)
  let fs := fs_add_uint64 fs "icmp_type" p.icmp6_type
  let fs := fs_add_uint64 fs "icmp_code" p.icmp6_code
  let fs := fs_add_null fs "icmp_unreach_str"
  let fs := fs_add_null fs "udp_pkt_size"
  fs_add_null fs "data"

/-! ## DNS question configuration and response validity (module_dns.c) -/

/-- Byte-swap a uint16 (htons / ntohs on a little-endian host). -/
def hton16 (x : Nat) : Nat := (x % 256) * 256 + (x / 256) % 256

/-- sizeof(dns_header): 12 bytes. -/
def SIZEOF_DNS_HEADER : Nat := 12
/-- sizeof(dns_question_tail): 4 bytes. -/
def SIZEOF_DNS_QUESTION_TAIL : Nat := 4

/-- One configured DNS question as materialised by global initialization:
qnames[i] (label-encoded, null terminated, as a byte list), qtypes[i], the
qtype and qclass bytes stored in the question tail of the prebuilt query
packet dns_packets[i], and dns_packet_lens[i]. -/
structure DnsQuestion where
  qname : List Nat
  qtype : Nat
  stored_qtype : Nat
  stored_qclass : Nat
  packet_len : Nat
deriving Repr, DecidableEq

/-- module_dns.c lines 160 to 206 build_global_dns_packets, restricted to
question i: the stored query packet carries qdcount 1, the qname, a tail
with qtype htons(qtypes[i]) and qclass htons(0x01), and
dns_packet_lens[i] = sizeof(dns_header) + qname_lens[i] +
sizeof(dns_question_tail). -/
def build_dns_question (qname : List Nat) (qt : Nat) : DnsQuestion :=
  { qname := qname
    qtype := qt
    stored_qtype := hton16 qt
    stored_qclass := hton16 1
    packet_len := SIZEOF_DNS_HEADER + qname.length + SIZEOF_DNS_QUESTION_TAIL }

/-- The fields of a captured DNS/UDP response consulted (or, for the echoed
question tail, pointedly NOT consulted) by the validity computation of
dns_process_packet: the UDP length, the transaction id, the echoed qname
bytes, and the echoed question tail qtype and qclass. -/
structure DnsResponse where
  udp_len : Nat
  id : Nat
  qname : List Nat
  echoed_qtype : Nat
  echoed_qclass : Nat
deriving Repr, DecidableEq

/-- module_dns.c lines 997 to 1030: the is_valid computation of
dns_process_packet that becomes the success field.  For each configured
question i with udp_len >= dns_packet_lens[i]: the response id must equal
validation[2] & 0xFFFF, the echoed qname (from byte offset 16 when
zconf.dnsippadding is set, else 0) must equal qnames[i] from the same
offset, and tail_p — which points into the module's own stored packet
dns_packets[i], not into the response — must carry htons(qtypes[i]) and
htons(0x01). -/
def dns_response_is_valid (dnsippadding : Bool) (questions : List DnsQuestion)
    (v2 : Nat) (resp : DnsResponse) : Bool :=
  let off := if dnsippadding then 16 else 0
  questions.any fun q =>
    decide (q.packet_len ≤ resp.udp_len) &&
    decide (resp.id = v2 &&& 0xFFFF) &&
    decide (resp.qname.drop off = q.qname.drop off) &&
    decide (q.stored_qtype = hton16 q.qtype) &&
    decide (q.stored_qclass = hton16 1)

/-! ## IPv4 header construction (packet.c lines 113 to 126, 312 to 317) and
dns_make_packet (module_dns.c lines 827 to 914) -/

/-- MAXTTL. -/
def MAXTTL : Nat := 255
/-- IPPROTO_UDP. -/
def IPPROTO_UDP : Nat := 17
/-- sizeof(struct udphdr): 8 bytes. -/
def SIZEOF_UDPHDR : Nat := 8
/-- sizeof(struct ether_header): 14 bytes. -/
def SIZEOF_ETHER_HEADER : Nat := 14

/-- The struct ip fields.  uint16 fields hold the value as the C variable
holds it (already byte swapped where the code applied htons). -/
structure IpHdr where
  ip_hl : Nat
  ip_v : Nat
  ip_tos : Nat
  ip_len : Nat
  ip_id : Nat
  ip_off : Nat
  ip_ttl : Nat
  ip_p : Nat
  ip_sum : Nat
  ip_src : Nat
  ip_dst : Nat
deriving Repr, DecidableEq

/-- packet.c lines 113 to 126 make_ip_header: ihl 5, version 4, tos 0, the
given (already byte swapped) length, id htons(54321), no fragmentation,
ttl MAXTTL, the given protocol, checksum zeroed. -/
def make_ip_header (iph : IpHdr) (protocol : Nat) (len : Nat) : IpHdr :=
  { iph with
    ip_hl := 5
    ip_v := 4
    ip_tos := 0
    ip_len := len
    ip_id := hton16 54321
    ip_off := 0
    ip_ttl := MAXTTL
    ip_p := protocol
    ip_sum := 0 }

/-- The struct udphdr fields (uint16 values as the C variables hold them). -/
structure UdpHdr where
  uh_sport : Nat
  uh_dport : Nat
  uh_ulen : Nat
  uh_sum : Nat
deriving Repr, DecidableEq

/-- packet.c lines 312 to 317 make_udp_header: htons length, checksum 0. -/
def make_udp_header (udp : UdpHdr) (len : Nat) : UdpHdr :=
  { udp with uh_ulen := hton16 len, uh_sum := 0 }

/-- packet.h in_checksum / zmap_ip_checksum over the 16-bit little-endian
memory words of the header: fold the carries once and return the one's
complement truncated to 16 bits. -/
def in_checksum (words : List Nat) : Nat :=
  let s := words.sum
  let s2 := (s >>> 16) + (s % 65536)
  65535 - s2 % 65536

/-- The ten 16-bit memory words of a struct ip on a little-endian host:
byte 0 is ip_hl | ip_v << 4, uint16 fields read back as their stored
values, and the two uint32 addresses read as two words each. -/
def zmap_ip_checksum (iph : IpHdr) : Nat :=
  in_checksum
    [iph.ip_hl % 16 + (iph.ip_v % 16) * 16 + (iph.ip_tos % 256) * 256,
     iph.ip_len % 65536,
     iph.ip_id % 65536,
     iph.ip_off % 65536,
     iph.ip_ttl % 256 + (iph.ip_p % 256) * 256,
     iph.ip_sum % 65536,
     iph.ip_src % 65536, (iph.ip_src >>> 16) % 65536,
     iph.ip_dst % 65536, (iph.ip_dst >>> 16) % 65536]

/-- The DNS probe packet buffer as structured headers plus the DNS id and
the index of the question whose prebuilt payload occupies the buffer. -/
structure DnsProbePacket where
  ip : IpHdr
  udp : UdpHdr
  dns_id : Nat
  payload_question : Nat
deriving Repr, DecidableEq

/-- The module_dns globals set up by initialization that dns_make_packet
reads: dns_packet_lens (whose length is num_questions) and the source port
range width num_ports. -/
structure DnsModuleState where
  dns_packet_lens : List Nat
  num_ports : Nat
deriving Repr, DecidableEq

/-- module_dns.c lines 779 to 783. -/
def get_dns_question_index_by_probe_num (num_questions : Nat) (probe_num : Nat) : Nat :=
  probe_num % num_questions

/-- module_dns.c lines 745 to 768 dns_prepare_packet: zeroed buffer, then
Ethernet, IP and UDP headers sized for question 0, payload dns_packets[0]. -/
def dns_prepare_packet (st : DnsModuleState) : DnsProbePacket :=
  let ip0 : IpHdr := ⟨0, 0, 0, 0, 0, 0, 0, 0, 0, 0, 0⟩
  let udp0 : UdpHdr := ⟨0, 0, 0, 0⟩
  let len0 := st.dns_packet_lens.getD 0 0
  { ip := make_ip_header ip0 IPPROTO_UDP (hton16 (SIZEOF_STRUCT_IP + SIZEOF_UDPHDR + len0))
    udp := make_udp_header udp0 (SIZEOF_UDPHDR + len0)
    dns_id := 0
    payload_question := 0 }

/-- module_dns.c lines 827 to 914 dns_make_packet: when num_questions > 0,
rebuild the IP and UDP headers for the probe's question and copy its
payload; then patch source and destination address, ttl, ip_id, source and
destination port and the DNS transaction id validation[2] & 0xFFFF, and
recompute the IP checksum.  (The optional qname ip padding step operates on
the byte buffer and is modelled separately by dns_apply_ippadding.) -/
def dns_make_packet (st : DnsModuleState) (zconf : PortConf)
    (pkt : DnsProbePacket) (src_ip dst_ip : Nat) (dport : Nat) (ttl : Nat)
    (validation : Nat → Nat) (probe_num : Nat) (ip_id : Nat) : DnsProbePacket :=
  let num_questions := st.dns_packet_lens.length
  let pkt :=
    if 0 < num_questions then
      let dns_index := get_dns_question_index_by_probe_num num_questions probe_num
      let plen := st.dns_packet_lens.getD dns_index 0
      { pkt with
        ip := make_ip_header pkt.ip IPPROTO_UDP
                (hton16 (SIZEOF_STRUCT_IP + SIZEOF_UDPHDR + plen))
        udp := make_udp_header pkt.udp (SIZEOF_UDPHDR + plen)
        payload_question := dns_index }
    else pkt
  let ip1 := { pkt.ip with ip_src := src_ip, ip_dst := dst_ip, ip_ttl := ttl, ip_id := ip_id }
  let udp1 := { pkt.udp with
                uh_sport := get_src_port zconf st.num_ports probe_num (validation 1)
                uh_dport := dport }
  let ip2 := { ip1 with ip_sum := 0 }
  let ip3 := { ip2 with ip_sum := zmap_ip_checksum ip2 }
  { pkt with ip := ip3, udp := udp1, dns_id := validation 2 &&& 0xFFFF }

/-- send.c lines 422 to 446: how send_run invokes make_packet for one
probe: ttl is zconf.probe_ttl and the ip_id argument is the low 16 bits of
the last validation word, validation[3] & 0xFFFF. -/
def send_run_build_probe (st : DnsModuleState) (zconf : PortConf)
    (probe_ttl : Nat) (src_ip dst_ip : Nat) (dport : Nat)
    (validation : Nat → Nat) (probe_num : Nat) : DnsProbePacket :=
  dns_make_packet st zconf (dns_prepare_packet st) src_ip dst_ip dport
    probe_ttl validation probe_num (validation 3 &&& 0xFFFF)

/-! # Theorems for the claims -/

/-- Claim C2, counterexample: for bandwidth 1,000,000,000 and probe max
packet length 40, send_init computes rate 1,000,000,000 / 672 = 1488095
(the 84-byte Ethernet minimum is applied to the whole frame including the
24-byte framing overhead), not 1,000,000,000 / ((max(40,84))·8 + 24·8) =
1,000,000,000 / 864 = 1157407 as claimed. -/
theorem bandwidth_to_rate_formula_counterexample :
    bandwidth_to_rate 1000000000 40 = 1488095 ∧
    1000000000 / ((max 40 84) * 8 + 24 * 8) = 1157407 ∧
    bandwidth_to_rate 1000000000 40 ≠ 1000000000 / ((max 40 84) * 8 + 24 * 8) := by
  refine ⟨by decide, by decide, by decide⟩

/-- Claim C2 (amended): when a bandwidth B > 0 is configured instead of a
rate, send_init sets the packet rate to B divided by the framed packet size
in bits computed as max(max_packet_length·8 + 24·8, 84·8): the Ethernet
minimum floor applies to the whole frame after adding the 24-byte framing
overhead.  Stated for quotients in [1, 2^32 - 1], where the overflow and
zero clamps of send_init do not fire. -/
theorem bandwidth_to_rate_eq_max_frame (B L : Nat)
    (h1 : 1 ≤ B / max (L * 8 + 8 * 24) (84 * 8))
    (h2 : B / max (L * 8 + 8 * 24) (84 * 8) ≤ 0xFFFFFFFF) :
    bandwidth_to_rate B L = B / max (L * 8 + 8 * 24) (84 * 8) := by
  unfold bandwidth_to_rate
  have hmax : (if L * 8 + 8 * 24 < 84 * 8 then 84 * 8 else L * 8 + 8 * 24)
      = max (L * 8 + 8 * 24) (84 * 8) := by
    rw [Nat.max_def]
    rcases Nat.lt_or_ge (L * 8 + 8 * 24) (84 * 8) with h | h
    · rw [if_pos h, if_pos (Nat.le_of_lt h)]
    · rw [if_neg (Nat.not_lt.mpr h)]
      rcases Nat.eq_or_lt_of_le h with h84 | h84
      · rw [if_pos h84.ge, h84]
      · rw [if_neg (by omega)]
  simp only [hmax]
  rw [if_neg (by omega), if_neg (by omega)]

/-- Witness for claim C2: at bandwidth 1,000,000,000 and length 40 the
hypotheses hold and the amended formula evaluates to 1488095. -/
theorem bandwidth_to_rate_eq_max_frame_witness :
    bandwidth_to_rate 1000000000 40 = 1000000000 / max (40 * 8 + 8 * 24) (84 * 8) :=
  bandwidth_to_rate_eq_max_frame 1000000000 40 (by decide) (by decide)

/-- Claim C3: if senders × total_shards exceeds count_allowed × port_count,
send_init fails fatally with the configuration error
"senders * shards > allowed probes" (the first check of send_init, before
any iterator or socket work). -/
theorem send_init_refuses_oversubscription (c : SendInitConf)
    (h : c.count_allowed * c.port_count < c.senders * c.total_shards) :
    send_init_checks c = Except.error "senders * shards > allowed probes" := by
  unfold send_init_checks
  rw [if_pos h]

/-- Witness for claim C3: S = 4, T = 4, count_allowed = 8, port count 1 is
refused. -/
theorem send_init_refuses_oversubscription_witness :
    send_init_checks ⟨4, 4, 8, 1, 0, 0, -1, 40⟩ =
      Except.error "senders * shards > allowed probes" :=
  send_init_refuses_oversubscription ⟨4, 4, 8, 1, 0, 0, -1, 40⟩ (by decide)

/-- Claim C10: icmp_helper_validate returns PACKET_VALID (some, carrying
the embedded destination and length) exactly when the capture is long
enough for the outer header, ICMP header, embedded IP header and minimum L4
payload, the embedded packet spans its own header plus the minimum L4
payload, the outer ICMP type is unreachable, source quench, redirect or
time exceeded, and the embedded destination is allowed by the blocklist;
in every other case it returns none (PACKET_INVALID with the out-parameters
unwritten). -/
theorem icmp_helper_validate_valid_iff (allowed : Nat → Bool)
    (pkt : IcmpCapture) (len min_l4_len : Nat) :
    (icmp_helper_validate allowed pkt len min_l4_len).isSome = true ↔
      (4 * pkt.ip_hl + 8 + 20 + min_l4_len ≤ len ∧
       4 * pkt.inner_ip_hl + min_l4_len ≤ len - (4 * pkt.ip_hl + 8) ∧
       (pkt.icmp_type = 3 ∨ pkt.icmp_type = 4 ∨ pkt.icmp_type = 5 ∨
        pkt.icmp_type = 11) ∧
       allowed pkt.inner_ip_dst = true) := by
  simp only [icmp_helper_validate, ICMP_UNREACH, ICMP_SOURCEQUENCH, ICMP_REDIRECT,
    ICMP_TIMXCEED, ICMP_HEADER_SIZE, SIZEOF_STRUCT_IP]
  split_ifs with h1 h2 h3 h4 <;> simp_all

/-! ### Helper lemmas on send traces -/

theorem slots_submitted_append (a b : List (SendEvent P)) :
    slots_submitted (a ++ b) = slots_submitted a + slots_submitted b := by
  induction a with
  | nil => simp [slots_submitted]
  | cons e a ih => cases e <;> simp [slots_submitted, ih, Nat.add_assoc]

theorem printed_packets_append (a b : List (SendEvent P)) :
    printed_packets (a ++ b) = printed_packets a ++ printed_packets b := by
  induction a with
  | nil => simp [printed_packets]
  | cons e a ih => cases e <;> simp [printed_packets, ih]

theorem has_send_event_append (a b : List (SendEvent P)) :
    has_send_event (a ++ b) = (has_send_event a || has_send_event b) := by
  induction a with
  | nil => simp [has_send_event]
  | cons e a ih => cases e <;> simp [has_send_event, ih]

theorem slots_submitted_map_print (ps : List P) :
    slots_submitted (ps.map SendEvent.print) = 0 := by
  induction ps with
  | nil => rfl
  | cons p ps ih => simp [slots_submitted, ih]

theorem printed_packets_map_print (ps : List P) :
    printed_packets (ps.map SendEvent.print) = ps := by
  induction ps with
  | nil => rfl
  | cons p ps ih => simp [printed_packets, ih]

theorem has_send_event_map_print (ps : List P) :
    has_send_event (ps.map SendEvent.print) = false := by
  induction ps with
  | nil => rfl
  | cons p ps ih => simp [has_send_event, ih]

/-- Every iteration of the packet loop increments packets_sent by exactly
one, in every branch (batch not yet full, dry-run print, send_batch). -/
theorem send_loop_step_packets_sent (dryrun : Bool) (capacity : Nat)
    (rcs : Nat → Int) (st : BatchState P) (p : P) :
    (send_loop_step dryrun capacity rcs st p).packets_sent = st.packets_sent + 1 := by
  simp only [send_loop_step]
  split_ifs <;> rfl

theorem foldl_send_loop_packets_sent (dryrun : Bool) (capacity : Nat)
    (rcs : Nat → Int) (ps : List P) (st : BatchState P) :
    (ps.foldl (send_loop_step dryrun capacity rcs) st).packets_sent
      = st.packets_sent + ps.length := by
  induction ps generalizing st with
  | nil => simp
  | cons p ps ih =>
    rw [List.foldl_cons, ih, send_loop_step_packets_sent]
    simp only [List.length_cons]
    omega

/-- In non-dry-run mode, slots already submitted plus the pending batch
grow by one per packet. -/
theorem foldl_send_loop_slots (capacity : Nat) (rcs : Nat → Int)
    (ps : List P) (st : BatchState P) :
    slots_submitted (ps.foldl (send_loop_step false capacity rcs) st).events
      + (ps.foldl (send_loop_step false capacity rcs) st).batch.length
    = slots_submitted st.events + st.batch.length + ps.length := by
  induction ps generalizing st with
  | nil => simp
  | cons p ps ih =>
    rw [List.foldl_cons, ih]
    have hstep : slots_submitted (send_loop_step false capacity rcs st p).events
        + (send_loop_step false capacity rcs st p).batch.length
        = slots_submitted st.events + st.batch.length + 1 := by
      simp only [send_loop_step, Bool.false_eq_true, if_false]
      split_ifs with h h2
      · simp [slots_submitted_append, slots_submitted]
        omega
      · simp [slots_submitted_append, slots_submitted]
        omega
      · simp
        omega
    simp only [List.length_cons]
    omega

/-- In dry-run mode the trace contains only print events. -/
theorem foldl_send_loop_dryrun_no_send (capacity : Nat) (rcs : Nat → Int)
    (ps : List P) (st : BatchState P) :
    has_send_event (ps.foldl (send_loop_step true capacity rcs) st).events
      = has_send_event st.events := by
  induction ps generalizing st with
  | nil => rfl
  | cons p ps ih =>
    rw [List.foldl_cons, ih]
    simp only [send_loop_step, if_true]
    split_ifs with h
    · simp [has_send_event_append, has_send_event_map_print, has_send_event]
    · rfl

/-- In dry-run mode, packets printed so far plus the pending batch follow
the build order. -/
theorem foldl_send_loop_dryrun_printed (capacity : Nat) (rcs : Nat → Int)
    (ps : List P) (st : BatchState P) :
    printed_packets (ps.foldl (send_loop_step true capacity rcs) st).events
        ++ (ps.foldl (send_loop_step true capacity rcs) st).batch
      = printed_packets st.events ++ st.batch ++ ps := by
  induction ps generalizing st with
  | nil => simp
  | cons p ps ih =>
    rw [List.foldl_cons, ih]
    have hstep : printed_packets (send_loop_step true capacity rcs st p).events
        ++ (send_loop_step true capacity rcs st p).batch
        = printed_packets st.events ++ st.batch ++ [p] := by
      simp only [send_loop_step, if_true]
      split_ifs with h
      · simp [printed_packets_append, printed_packets_map_print, printed_packets]
      · simp
    rw [hstep]
    simp

/-- Claim C1, counterexample: with batch capacity 1, a single built packet
and send_batch accepting 0 packets, the shard finishes with packets_sent =
1 while the number of batch slots submitted successfully is 0: packets_sent
counts every slot placed in a batch, accepted or not (the shortfall goes to
packets_failed instead). -/
theorem packets_sent_ne_slots_accepted_counterexample :
    (send_run_batches false 1 (fun _ => 0) [(0 : Nat)]).packets_sent = 1 ∧
    slots_accepted (fun _ => 0)
        (send_run_batches false 1 (fun _ => 0) [(0 : Nat)]).events 0 = 0 ∧
    (1 : Nat) ≠ 0 := by
  refine ⟨rfl, rfl, by decide⟩

/-- Claim C1 (amended): for every scan, the aggregate packets_sent counter,
the sum over all shards of the per-shard packets_sent counters maintained
in send_run, equals the number of batch slots submitted via send_batch with
retries counted once, whether or not those slots were accepted (every built
packet is submitted exactly once, full batches in the loop and the final
partial batch at cleanup; shortfalls are tracked separately in
packets_failed, and the cleanup batch outcome is only logged). -/
theorem total_packets_sent_eq_total_slots_submitted (capacity : Nat)
    (shards : List (ShardRun P)) :
    (shards.map fun s =>
        (send_run_batches false capacity s.rcs s.packets).packets_sent).sum
    = (shards.map fun s =>
        slots_submitted (send_run_batches false capacity s.rcs s.packets).events).sum := by
  have hsent : ∀ s : ShardRun P,
      (send_run_batches false capacity s.rcs s.packets).packets_sent
        = s.packets.length := by
    intro s
    simp only [send_run_batches, send_run_cleanup, Bool.false_eq_true, if_false]
    rw [foldl_send_loop_packets_sent]
    simp [initBatchState]
  have hslots : ∀ s : ShardRun P,
      slots_submitted (send_run_batches false capacity s.rcs s.packets).events
        = s.packets.length := by
    intro s
    have h := foldl_send_loop_slots capacity s.rcs s.packets (initBatchState P)
    simp only [initBatchState, slots_submitted, List.length_nil, Nat.add_zero,
      Nat.zero_add] at h
    simp only [send_run_batches, send_run_cleanup, Bool.false_eq_true, if_false,
      initBatchState]
    simp only [slots_submitted_append, slots_submitted]
    omega
  simp only [List.map_congr_left fun s _ => hsent s,
    List.map_congr_left fun s _ => hslots s]

/-- Claim C9: when dry-run mode is enabled, send_run prints the textual
dump of every built packet to stdout, in build order and including the
final partial batch at cleanup, and never calls send_batch, so no packet is
transmitted on the socket. -/
theorem dryrun_prints_all_and_never_sends (capacity : Nat) (rcs : Nat → Int)
    (ps : List P) :
    has_send_event (send_run_batches true capacity rcs ps).events = false ∧
    printed_packets (send_run_batches true capacity rcs ps).events = ps := by
  constructor
  · simp only [send_run_batches, send_run_cleanup, if_true]
    simp only [has_send_event_append, has_send_event_map_print,
      foldl_send_loop_dryrun_no_send]
    rfl
  · have h := foldl_send_loop_dryrun_printed capacity rcs ps (initBatchState P)
    simp only [initBatchState, printed_packets, List.nil_append] at h
    simp only [send_run_batches, send_run_cleanup, if_true]
    simp only [printed_packets_append, printed_packets_map_print]
    simpa using h

/-- Shifting by a multiple of the modulus: (v + k) mod n = (v mod n + k) mod n. -/
theorem mod_add_shift (v k n : Nat) :
    (v + k) % n = (v % n + k) % n := by
  have hdm := Nat.div_add_mod v n
  have hrw : v + k = v % n + k + n * (v / n) := by omega
  rw [hrw, Nat.add_mul_mod_self_left]

/-- Claim C5, counterexample: the claim fails for validation vectors where
validation[1] + probe_num wraps around 2^32: with source ports 0 to 9
(num_ports = 10 = 9 - 0 + 1), packet_streams = 7 <= 10, probe_num = 2 < 7
and V[1] = 4294967294, get_src_port computes (4294967294 + 2) mod 2^32 mod
10 = 0, but check_dst_port computes the window [4, 4] (both endpoints from
(4294967294 + 6) mod 2^32 mod 10 = 4) and rejects port 0. -/
theorem src_port_round_trip_counterexample :
    (10 : Nat) = 9 - 0 + 1 ∧ (1 : Nat) ≤ 7 ∧ (7 : Nat) ≤ 10 ∧ (2 : Nat) < 7 ∧
    get_src_port ⟨0, 9, 7⟩ 10 2 4294967294 = 0 ∧
    check_dst_port ⟨0, 9, 7⟩ (get_src_port ⟨0, 9, 7⟩ 10 2 4294967294) 10 4294967294
      = false := by
  refine ⟨by decide, by decide, by decide, by decide, by decide, by decide⟩

/-- Claim C5 (amended): for every validation vector V with V[1] +
packet_streams - 1 < 2^32 (so the uint32 additions in get_src_port and
check_dst_port do not wrap), every source port range [first, last] with
num_ports = last - first + 1 >= 1, every packet_streams in [1, num_ports]
and every probe_num in [0, packet_streams), the source port chosen at build
time by get_src_port, first + ((V[1] + probe_num) mod num_ports), is
accepted at validation time by check_dst_port, including the case where the
acceptance window derived from V[1] wraps around the end of the source port
range. -/
theorem src_port_round_trip (zconf : PortConf) (num_ports probe_num v1 : Nat)
    (hn : num_ports = zconf.source_port_last - zconf.source_port_first + 1)
    (hfl : zconf.source_port_first ≤ zconf.source_port_last)
    (hs1 : 1 ≤ zconf.packet_streams)
    (hsn : zconf.packet_streams ≤ num_ports)
    (hp : probe_num < zconf.packet_streams)
    (hwrap : v1 + zconf.packet_streams ≤ UINT32_MOD) :
    check_dst_port zconf (get_src_port zconf num_ports probe_num v1) num_ports v1
      = true := by
  have hM : UINT32_MOD = 4294967296 := rfl
  have hn1 : 0 < num_ports := by omega
  have ha : v1 % num_ports < num_ports := Nat.mod_lt _ hn1
  have ht : (v1 % num_ports + probe_num) % num_ports < num_ports := Nat.mod_lt _ hn1
  have hp32 : (v1 + probe_num) % UINT32_MOD = v1 + probe_num :=
    Nat.mod_eq_of_lt (by omega)
  have hs32 : (v1 + zconf.packet_streams + (UINT32_MOD - 1)) % UINT32_MOD
      = v1 + zconf.packet_streams - 1 := by
    have h1 : UINT32_MOD ≤ v1 + zconf.packet_streams + (UINT32_MOD - 1) := by omega
    have h2 : v1 + zconf.packet_streams + (UINT32_MOD - 1) - UINT32_MOD
        = v1 + zconf.packet_streams - 1 := by omega
    rw [Nat.mod_eq_sub_mod h1, h2, Nat.mod_eq_of_lt (by omega)]
  have hport : get_src_port zconf num_ports probe_num v1
      = zconf.source_port_first + (v1 % num_ports + probe_num) % num_ports := by
    simp only [get_src_port, hp32, mod_add_shift v1 probe_num num_ports]
  rw [hport]
  simp only [check_dst_port, hs32]
  rw [if_neg (by omega)]
  have hsplit : v1 + zconf.packet_streams - 1 = v1 + (zconf.packet_streams - 1) := by
    omega
  rw [hsplit, mod_add_shift v1 (zconf.packet_streams - 1) num_ports]
  have hsub : zconf.source_port_first + (v1 % num_ports + probe_num) % num_ports
      - zconf.source_port_first = (v1 % num_ports + probe_num) % num_ports := by
    omega
  rw [hsub]
  rcases Nat.lt_or_ge (v1 % num_ports + (zconf.packet_streams - 1)) num_ports
    with hcase | hcase
  · -- window does not wrap around the end of the range
    have hmx : (v1 % num_ports + (zconf.packet_streams - 1)) % num_ports
        = v1 % num_ports + (zconf.packet_streams - 1) := Nat.mod_eq_of_lt hcase
    have htv : (v1 % num_ports + probe_num) % num_ports
        = v1 % num_ports + probe_num := Nat.mod_eq_of_lt (by omega)
    rw [hmx, htv, if_pos (by omega)]
    simp only [decide_eq_true_eq]
    omega
  · -- window wraps: min > max and the xor branch accepts both arcs
    have hmx : (v1 % num_ports + (zconf.packet_streams - 1)) % num_ports
        = v1 % num_ports + (zconf.packet_streams - 1) - num_ports := by
      rw [Nat.mod_eq_sub_mod hcase, Nat.mod_eq_of_lt (by omega)]
    rw [hmx, if_neg (by omega)]
    rcases Nat.lt_or_ge (v1 % num_ports + probe_num) num_ports with hc2 | hc2
    · have htv : (v1 % num_ports + probe_num) % num_ports
          = v1 % num_ports + probe_num := Nat.mod_eq_of_lt hc2
      rw [htv]
      have d1 : decide (v1 % num_ports + probe_num
          ≤ v1 % num_ports + (zconf.packet_streams - 1) - num_ports) = false := by
        simp only [decide_eq_false_iff_not]
        omega
      have d2 : decide (v1 % num_ports + probe_num ≥ v1 % num_ports) = true := by
        simp only [decide_eq_true_eq]
        omega
      rw [d1, d2]
      rfl
    · have htv : (v1 % num_ports + probe_num) % num_ports
          = v1 % num_ports + probe_num - num_ports := by
        rw [Nat.mod_eq_sub_mod hc2, Nat.mod_eq_of_lt (by omega)]
      rw [htv]
      have d1 : decide (v1 % num_ports + probe_num - num_ports
          ≤ v1 % num_ports + (zconf.packet_streams - 1) - num_ports) = true := by
        simp only [decide_eq_true_eq]
        omega
      have d2 : decide (v1 % num_ports + probe_num - num_ports ≥ v1 % num_ports)
          = false := by
        simp only [decide_eq_false_iff_not]
        omega
      rw [d1, d2]
      rfl

/-- Witness for claim C5: a concrete non-wrapping instance, source ports
1000 to 1009, packet_streams 4, probe_num 3, V[1] = 1000000007; the built
port is accepted. -/
theorem src_port_round_trip_witness :
    check_dst_port ⟨1000, 1009, 4⟩
      (get_src_port ⟨1000, 1009, 4⟩ 10 3 1000000007) 10 1000000007 = true :=
  src_port_round_trip ⟨1000, 1009, 4⟩ 10 3 1000000007 (by decide) (by decide)
    (by decide) (by decide) (by decide) (by decide)

/-- Claim C4, counterexample: a captured response whose transaction id and
echoed qname match but whose echoed question tail carries qtype 255 instead
of the configured qtype 1 is still marked success = true: the qtype/qclass
comparison of dns_process_packet reads tail_p from the stored query packet
dns_packets[i], not from the response, so the echoed qtype and qclass are
never checked. -/
theorem dns_success_echoed_qtype_counterexample :
    dns_response_is_valid false [build_dns_question [3, 119, 119, 119, 0] 1] 7
        ⟨100, 7, [3, 119, 119, 119, 0], hton16 255, hton16 1⟩ = true ∧
    (⟨100, 7, [3, 119, 119, 119, 0], hton16 255, hton16 1⟩ : DnsResponse).echoed_qtype
      ≠ hton16 (build_dns_question [3, 119, 119, 119, 0] 1).qtype := by
  refine ⟨by decide, by decide⟩

/-- Claim C4 (amended): for question configurations built by
build_global_dns_packets, a captured DNS/UDP response is marked
success = true if and only if its transaction id equals V[2] & 0xFFFF and
its echoed qname matches the qname of some configured question whose query
packet fits in the response (udp_len >= dns_packet_lens[i]); when the
embed-target-IP flag is set only the qname bytes past the 16-byte prefix
are compared.  The echoed qtype and qclass are not consulted: the tail
check reads the stored query packet, where qtype = htons(qtypes[i]) and
qclass = htons(1) hold by construction. -/
theorem dns_success_iff_id_and_qname (dnsippadding : Bool)
    (qs : List (List Nat × Nat)) (v2 : Nat) (resp : DnsResponse) :
    dns_response_is_valid dnsippadding
        (qs.map fun q => build_dns_question q.1 q.2) v2 resp = true ↔
      (resp.id = v2 &&& 0xFFFF ∧
       ∃ q ∈ qs,
         SIZEOF_DNS_HEADER + q.1.length + SIZEOF_DNS_QUESTION_TAIL ≤ resp.udp_len ∧
         resp.qname.drop (if dnsippadding then 16 else 0)
           = q.1.drop (if dnsippadding then 16 else 0)) := by
  simp only [dns_response_is_valid, List.any_eq_true, List.mem_map,
    build_dns_question, Bool.and_eq_true, decide_eq_true_eq]
  constructor
  · rintro ⟨x, ⟨q, hq, rfl⟩, ⟨⟨⟨h1, h2⟩, h3⟩, -⟩, -⟩
    exact ⟨h2, q, hq, h1, h3⟩
  · rintro ⟨hid, q, hq, h1, h2⟩
    exact ⟨_, ⟨q, hq, rfl⟩, ⟨⟨⟨h1, hid⟩, h2⟩, rfl⟩, rfl⟩

/-- Claim C6: every IPv4 DNS probe packet built by dns_make_packet, as
invoked by send_run with ttl = zconf.probe_ttl and ip_id =
validation[3] & 0xFFFF, carries an IPv4 header with ihl = 5 (and version
4), ttl equal to the configured probe_ttl, and identification field equal
to validation[3] & 0xFFFF: the hardcoded default id = htons(54321) written
by make_ip_header is overwritten before the packet is finished. -/
theorem dns_probe_ip_header_fields (st : DnsModuleState) (zconf : PortConf)
    (probe_ttl src_ip dst_ip dport probe_num : Nat) (validation : Nat → Nat) :
    (send_run_build_probe st zconf probe_ttl src_ip dst_ip dport validation
        probe_num).ip.ip_hl = 5 ∧
    (send_run_build_probe st zconf probe_ttl src_ip dst_ip dport validation
        probe_num).ip.ip_v = 4 ∧
    (send_run_build_probe st zconf probe_ttl src_ip dst_ip dport validation
        probe_num).ip.ip_ttl = probe_ttl ∧
    (send_run_build_probe st zconf probe_ttl src_ip dst_ip dport validation
        probe_num).ip.ip_id = validation 3 &&& 0xFFFF := by
  simp only [send_run_build_probe, dns_make_packet, dns_prepare_packet,
    make_ip_header, make_udp_header, get_dns_question_index_by_probe_num]
  split_ifs <;> simp

/-- Claim C7, counterexample: for an ICMP error captured by the IPv4 DNS
module (a port-unreachable from 9.9.9.9 embedding a probe originally sent
to 1.2.3.4), dns_process_packet emits classification "icmp", not
"icmp-unreach" as claimed. -/
theorem icmp_classification_counterexample :
    fs_lookup
        (dns_process_packet_icmp ⟨⟨9, 9, 9, 9⟩, 3, 3, ⟨1, 2, 3, 4⟩⟩ []
          (fs_add_ip_fields [] ⟨9, 9, 9, 9⟩ ⟨10, 0, 0, 1⟩ 7 64))
        "classification" = some (FieldVal.vstr "icmp") ∧
    FieldVal.vstr "icmp" ≠ FieldVal.vstr "icmp-unreach" := by
  refine ⟨by decide, by decide⟩

/-- Claim C7 (amended): for an ICMP error response embedding the original
probe, the emitted record's saddr is rewritten to the embedded inner
destination address (the target the probe was sent to), icmp_responder is
the outer source of the ICMP message, and success is false; the
classification is "icmp" in the IPv4 DNS module's record, while the IPv6
UDP module uses "icmp-unreach". -/
theorem icmp_record_fields (p : IcmpRecordInput) (raw : List Nat)
    (dst : IPv4) (ip_id ttl : Nat) (A : Type) (ip6str : A → String)
    (p6 : Icmp6RecordInput A) :
    (fs_lookup (dns_process_packet_icmp p raw (fs_add_ip_fields [] p.src dst ip_id ttl))
        "saddr" = some (FieldVal.vstr (make_ip_str p.inner_dst)) ∧
     fs_lookup (dns_process_packet_icmp p raw (fs_add_ip_fields [] p.src dst ip_id ttl))
        "icmp_responder" = some (FieldVal.vstr (make_ip_str p.src)) ∧
     fs_lookup (dns_process_packet_icmp p raw (fs_add_ip_fields [] p.src dst ip_id ttl))
        "classification" = some (FieldVal.vstr "icmp") ∧
     fs_lookup (dns_process_packet_icmp p raw (fs_add_ip_fields [] p.src dst ip_id ttl))
        "success" = some (FieldVal.vbool false)) ∧
    (fs_lookup (ipv6_udp_process_packet_icmp6 ip6str p6
          (fs_add_string [] "saddr" (ip6str p6.src)))
        "saddr" = some (FieldVal.vstr (ip6str p6.inner_dst)) ∧
     fs_lookup (ipv6_udp_process_packet_icmp6 ip6str p6
          (fs_add_string [] "saddr" (ip6str p6.src)))
        "icmp_responder" = some (FieldVal.vstr (ip6str p6.src)) ∧
     fs_lookup (ipv6_udp_process_packet_icmp6 ip6str p6
          (fs_add_string [] "saddr" (ip6str p6.src)))
        "classification" = some (FieldVal.vstr "icmp-unreach") ∧
     fs_lookup (ipv6_udp_process_packet_icmp6 ip6str p6
          (fs_add_string [] "saddr" (ip6str p6.src)))
        "success" = some (FieldVal.vnum 0)) := by
  simp [dns_process_packet_icmp, ipv6_udp_process_packet_icmp6,
    fs_add_ip_fields, fs_populate_icmp_from_iphdr, dns_add_null_fs,
    fs_add_string, fs_add_constchar, fs_add_uint64, fs_add_bool, fs_add_null,
    fs_add_binary, fs_add_repeated, fs_modify_string, fs_lookup]
  split_ifs <;> simp [List.find?]

/-- A byte triple is the zero-padded three-digit decimal ASCII rendering of
x: three bytes, each an ASCII digit, decoding to x by place value. -/
def is_zero_padded_decimal (bytes : List Nat) (x : Nat) : Prop :=
  bytes.length = 3 ∧ (∀ b ∈ bytes, 48 ≤ b ∧ b ≤ 57) ∧
  (bytes.getD 0 0 - 48) * 100 + (bytes.getD 1 0 - 48) * 10 + (bytes.getD 2 0 - 48) = x

/-- Claim C8: make_ip_strinqname encodes an IPv4 address as exactly 16
bytes, for each of the four octets a length byte 0x03 followed by the
octet's zero-padded three-digit decimal ASCII representation; and when the
embed-target-IP flag (dnsippadding) is set, dns_make_packet overwrites the
16 qname placeholder bytes at packet offset 54 with this encoding of the
destination address, leaving the rest of the buffer unchanged. -/
theorem make_ip_strinqname_encoding (ip : IPv4) (buf : List Nat)
    (h1 : ip.o1 < 256) (h2 : ip.o2 < 256) (h3 : ip.o3 < 256) (h4 : ip.o4 < 256)
    (hbuf : 70 ≤ buf.length) :
    (make_ip_strinqname ip).length = 16 ∧
    ((make_ip_strinqname ip).getD 0 0 = 3 ∧ (make_ip_strinqname ip).getD 4 0 = 3 ∧
     (make_ip_strinqname ip).getD 8 0 = 3 ∧ (make_ip_strinqname ip).getD 12 0 = 3) ∧
    is_zero_padded_decimal (((make_ip_strinqname ip).drop 1).take 3) ip.o1 ∧
    is_zero_padded_decimal (((make_ip_strinqname ip).drop 5).take 3) ip.o2 ∧
    is_zero_padded_decimal (((make_ip_strinqname ip).drop 9).take 3) ip.o3 ∧
    is_zero_padded_decimal (((make_ip_strinqname ip).drop 13).take 3) ip.o4 ∧
    (dns_apply_ippadding true buf ip).take 54 = buf.take 54 ∧
    ((dns_apply_ippadding true buf ip).drop 54).take 16 = make_ip_strinqname ip ∧
    (dns_apply_ippadding true buf ip).drop 70 = buf.drop 70 ∧
    (dns_apply_ippadding true buf ip).length = buf.length := by
  have hlen : (make_ip_strinqname ip).length = 16 := by
    simp [make_ip_strinqname, sprintf03d]
  have htake54 : (buf.take 54).length = 54 := by
    rw [List.length_take]
    omega
  have hmem : dns_apply_ippadding true buf ip
      = (buf.take 54 ++ make_ip_strinqname ip) ++ buf.drop 70 := by
    simp only [dns_apply_ippadding, if_true, memcpy_at, hlen, List.append_assoc]
  refine ⟨hlen, ?_, ?_, ?_, ?_, ?_, ?_, ?_, ?_, ?_⟩
  · simp [make_ip_strinqname, sprintf03d]
  · refine ⟨by simp [make_ip_strinqname, sprintf03d], ?_, ?_⟩
    · intro b hb
      simp [make_ip_strinqname, sprintf03d] at hb
      rcases hb with h | h | h <;> omega
    · simp [make_ip_strinqname, sprintf03d]
      omega
  · refine ⟨by simp [make_ip_strinqname, sprintf03d], ?_, ?_⟩
    · intro b hb
      simp [make_ip_strinqname, sprintf03d] at hb
      rcases hb with h | h | h <;> omega
    · simp [make_ip_strinqname, sprintf03d]
      omega
  · refine ⟨by simp [make_ip_strinqname, sprintf03d], ?_, ?_⟩
    · intro b hb
      simp [make_ip_strinqname, sprintf03d] at hb
      rcases hb with h | h | h <;> omega
    · simp [make_ip_strinqname, sprintf03d]
      omega
  · refine ⟨by simp [make_ip_strinqname, sprintf03d], ?_, ?_⟩
    · intro b hb
      simp [make_ip_strinqname, sprintf03d] at hb
      rcases hb with h | h | h <;> omega
    · simp [make_ip_strinqname, sprintf03d]
      omega
  · rw [hmem, List.append_assoc, List.take_left' htake54]
  · rw [hmem, List.append_assoc, List.drop_left' htake54, List.take_left' hlen]
  · have h70 : (buf.take 54 ++ make_ip_strinqname ip).length = 70 := by
      rw [List.length_append, htake54, hlen]
    rw [hmem, List.drop_left' h70]
  · rw [hmem]
    simp only [List.length_append, List.length_take, List.length_drop, hlen]
    omega

/-- Witness for claim C8: the address 1.2.3.4 encodes as
03 "001" 03 "002" 03 "003" 03 "004". -/
theorem make_ip_strinqname_encoding_witness :
    (make_ip_strinqname ⟨1, 2, 3, 4⟩).length = 16 ∧
    make_ip_strinqname ⟨1, 2, 3, 4⟩ =
      [3, 48, 48, 49, 3, 48, 48, 50, 3, 48, 48, 51, 3, 48, 48, 52] :=
  ⟨(make_ip_strinqname_encoding ⟨1, 2, 3, 4⟩ (List.replicate 70 0) (by decide)
      (by decide) (by decide) (by decide) (by simp)).1, by decide⟩

end ZMap
